import Mathlib

/-!
Shallow embedding of the `StasherDO` Durable Object of the stasher-worker
repository (the per-identifier burn-after-read coordinator), together with
theorems about its state machine.

Every request handled by `StasherDO.fetch`, and every run of the
`StasherDO.alarm` handler, executes inside `state.blockConcurrencyWhile`,
so an execution for one identifier is a sequence of atomic steps; `runDO`
replays such a sequence.  Times are integers: `nowMs` is `Date.now()` in
milliseconds, a stored `created_at` is in seconds, exactly as in the source.
-/

/-- The encrypted payload bundle stored under the `payload` key.  The gateway
always sends an object with the three base64 string fields `iv`, `tag` and
`ciphertext`; the durable object never inspects the bundle, it only moves
it. -/
structure Payload where
  iv : String
  tag : String
  ciphertext : String
  deriving DecidableEq, Repr

/-- Durable-object state for one identifier: the two storage keys written by
the code (`created_at`, seconds, and `payload`), plus the pending one-shot
alarm deadline in milliseconds as set by `storage.setAlarm`. -/
structure DOState where
  created_at : Option Int
  payload : Option Payload
  alarm : Option Int
  deriving DecidableEq, Repr

/-- The durable object before any request: storage empty, no alarm armed. -/
def initDO : DOState := ⟨none, none, none⟩

/-- The distinct responses produced by `StasherDO.fetch`, plus a marker for a
run of the `alarm` handler, which produces no HTTP response. -/
inductive DOResult where
  | gone                          -- 410 Gone: reactive gate, no truthy created_at
  | expired                       -- 410 Expired: reactive gate, past the deadline
  | invalidTimestamp              -- 400 Invalid timestamp
  | alreadyCreated                -- 409 Already created
  | created                       -- 200 status created
  | payloadResponse (p : Payload) -- 200, the consumed payload body
  | notFoundLocal                 -- 404 not_found: handler-local branch
  | deleted                       -- 200 status deleted
  | alarmRan                      -- the alarm handler ran (no response)
  deriving DecidableEq, Repr

/-- Ten minutes in milliseconds, the literal 600000 of the source. -/
def LIFETIME_MS : Int := 600000

/-- Allowed creation-timestamp skew in seconds, the source's maxSkew = 300. -/
def MAX_SKEW : Int := 300

/-- Effect of `storage.deleteAll()`: every stored key is removed.  A pending
alarm is not disarmed by `deleteAll`, and the source never calls
`deleteAlarm`. -/
def deleteAllKeys (s : DOState) : DOState := ⟨none, none, s.alarm⟩

/-- The reactive expiry gate run as the first step of every non-create
request (source lines 314-335).  JavaScript truthiness: `!createdAt` also
holds for a stored 0, so a zero timestamp is treated like an absent one and
answers 410 Gone.  Otherwise, at or past `created_at * 1000 + 600000` ms the
storage is wiped and the request short-circuits with 410 Expired. -/
def reactiveGate (s : DOState) (nowMs : Int) : Option (DOResult × DOState) :=
  match s.created_at with
  | none => some (.gone, s)
  | some ca =>
      if ca = 0 then some (.gone, s)
      else if ca * 1000 + LIFETIME_MS ≤ nowMs then some (.expired, deleteAllKeys s)
      else none

/-- POST create (source lines 337-365).  The skew check against
`Math.floor(Date.now() / 1000)` runs first; then the replay guard
`if (existingTimestamp)`, a truthiness test which a stored 0 does not
trigger; then both keys are written and the alarm armed for
`timestamp * 1000 + 600000` ms.  The source also requires
`Number.isInteger(body.timestamp)`, which every `Int` satisfies. -/
def createDO (s : DOState) (nowMs t : Int) (p : Payload) : DOResult × DOState :=
  if t < Int.fdiv nowMs 1000 - MAX_SKEW ∨ Int.fdiv nowMs 1000 + MAX_SKEW < t then
    (.invalidTimestamp, s)
  else
    match s.created_at with
    | some ca =>
        if ca = 0 then (.created, ⟨some t, some p, some (t * 1000 + LIFETIME_MS)⟩)
        else (.alreadyCreated, s)
    | none => (.created, ⟨some t, some p, some (t * 1000 + LIFETIME_MS)⟩)

/-- POST consume after the gate (source lines 367-381): burn after reading.
The branch condition is `!createdAt || !payload` with JavaScript truthiness;
on the main path both keys are deleted and the payload body returned. -/
def consumeBody (s : DOState) : DOResult × DOState :=
  match s.created_at, s.payload with
  | some ca, some p =>
      if ca = 0 then (.notFoundLocal, s)
      else (.payloadResponse p, ⟨none, none, s.alarm⟩)
  | _, _ => (.notFoundLocal, s)

/-- POST delete after the gate (source lines 383-394): both keys deleted. -/
def deleteBody (s : DOState) : DOResult × DOState :=
  match s.created_at with
  | some ca =>
      if ca = 0 then (.notFoundLocal, s)
      else (.deleted, ⟨none, none, s.alarm⟩)
  | none => (.notFoundLocal, s)

/-- The three requests the worker sends to a stash durable object. -/
inductive Op where
  | create (timestamp : Int) (p : Payload)
  | consume
  | delete
  deriving DecidableEq, Repr

/-- `StasherDO.fetch`: one atomic request.  Create skips the reactive gate;
consume and delete pass through it first. -/
def fetchDO (s : DOState) (nowMs : Int) : Op → DOResult × DOState
  | .create t p => createDO s nowMs t p
  | .consume =>
      match reactiveGate s nowMs with
      | some r => r
      | none => consumeBody s
  | .delete =>
      match reactiveGate s nowMs with
      | some r => r
      | none => deleteBody s

/-- `StasherDO.alarm` (source lines 404-410): `deleteAll` wipes the keys, and
the one-shot alarm has just fired, so no alarm is pending afterwards. -/
def alarmDO (_ : DOState) : DOState := ⟨none, none, none⟩

/-- One serialized step: a timed request, or the firing of the alarm. -/
inductive Event where
  | req (nowMs : Int) (op : Op)
  | alarmFire
  deriving DecidableEq, Repr

/-- Effect of one event on the state, with the emitted result. -/
def stepDO (s : DOState) : Event → DOResult × DOState
  | .req nowMs op => fetchDO s nowMs op
  | .alarmFire => (.alarmRan, alarmDO s)

/-- Replay a serialized sequence of events, collecting the results. -/
def runDO (s : DOState) : List Event → List DOResult × DOState
  | [] => ([], s)
  | e :: es =>
      ((stepDO s e).1 :: (runDO (stepDO s e).2 es).1, (runDO (stepDO s e).2 es).2)

/-- Did this response deliver the stored payload (spec outcome Success)? -/
def isSuccess : DOResult → Bool
  | .payloadResponse _ => true
  | _ => false

/-- Did this response report a fresh creation (spec outcome Created)? -/
def isCreated : DOResult → Bool
  | .created => true
  | _ => false

/-- Is this the handler-local 404 not_found response? -/
def isLocal404 : DOResult → Bool
  | .notFoundLocal => true
  | _ => false

/-- Number of responses that delivered the payload. -/
def successCount (rs : List DOResult) : Nat := (rs.filter isSuccess).length

/-- Number of responses reporting a fresh creation. -/
def createdCount (rs : List DOResult) : Nat := (rs.filter isCreated).length

/-- Is this event a create request? -/
def isCreateReq : Event → Bool
  | .req _ (.create _ _) => true
  | _ => false

/-- Number of create requests in an event sequence. -/
def createCount (es : List Event) : Nat := (es.filter isCreateReq).length

/-- Both-or-neither: the two storage keys are present or absent together. -/
def pairInv (s : DOState) : Bool := s.created_at.isSome == s.payload.isSome

/-- One when the pair of keys is fully present, else zero. -/
def pairBit (s : DOState) : Nat :=
  if s.created_at.isSome && s.payload.isSome then 1 else 0

/-- The armed deadline is `created_at` plus 600 s whenever `created_at` is
stored. -/
def alarmMatches (s : DOState) : Bool :=
  match s.created_at with
  | none => true
  | some ca => s.alarm == some (ca * 1000 + LIFETIME_MS)

/-- Modelled from the spec: the coordinator outcome taxonomy of section 6
(Created, AlreadyExists, InvalidTimestamp for create; Success, NotFound,
Expired for consume and delete). -/
inductive Outcome where
  | success (p : Payload)
  | deletedOk
  | notFound
  | expiredOut
  | createdOut
  | alreadyExists
  | invalidTs
  | noResponse
  deriving DecidableEq, Repr

/-- Modelled from the spec: how each concrete response of `StasherDO.fetch`
reads in the spec's outcome taxonomy.  The 410 Gone response is the code's
realization of NotFound for an identifier that holds no secret: it is the
only response an empty identifier produces, the handler-local 404 not_found
branches being unreachable. -/
def specView : DOResult → Outcome
  | .gone => .notFound
  | .notFoundLocal => .notFound
  | .expired => .expiredOut
  | .payloadResponse p => .success p
  | .deleted => .deletedOk
  | .created => .createdOut
  | .alreadyCreated => .alreadyExists
  | .invalidTimestamp => .invalidTs
  | .alarmRan => .noResponse

/-- A sample bundle for concrete runs. -/
def sp0 : Payload := ⟨"aXY=", "dGFn", "Y3Q="⟩

/-- A second sample bundle. -/
def sp1 : Payload := ⟨"aXYy", "dGFnMg==", "Y3Qy"⟩

/-! ### Helper lemmas: step and run invariants -/

/-- Filtered length over a cons, in a form `omega` can chain. -/
lemma filterLen_cons {α : Type} (p : α → Bool) (r : α) (rs : List α) :
    ((r :: rs).filter p).length = (if p r then 1 else 0) + (rs.filter p).length := by
  by_cases h : p r <;> simp [h, List.filter_cons, Nat.add_comm]

/-- One step preserves the both-or-neither pair invariant. -/
lemma step_pairInv (s : DOState) (e : Event) (h : pairInv s = true) :
    pairInv (stepDO s e).2 = true := by
  obtain ⟨ca, pl, al⟩ := s
  cases e with
  | alarmFire => rfl
  | req n op =>
      cases op <;> cases ca <;> cases pl <;>
        simp_all [stepDO, fetchDO, createDO, consumeBody, deleteBody, reactiveGate,
          deleteAllKeys, pairInv] <;>
        split_ifs <;> simp_all

/-- The pair invariant holds along any run. -/
lemma run_pairInv (es : List Event) : ∀ s : DOState, pairInv s = true →
    pairInv (runDO s es).2 = true := by
  induction es with
  | nil => intro s h; exact h
  | cons e es ih => intro s h; exact ih _ (step_pairInv s e h)

/-- Per-step counting: a payload can only be delivered out of a fully present
pair, which the delivery clears, and only a create request can report a fresh
creation. -/
lemma step_count (s : DOState) (e : Event) :
    (if isSuccess (stepDO s e).1 then 1 else 0) + pairBit (stepDO s e).2
      ≤ (if isCreated (stepDO s e).1 then 1 else 0) + pairBit s
    ∧ (if isCreated (stepDO s e).1 then 1 else 0) ≤ (if isCreateReq e then 1 else 0) := by
  obtain ⟨ca, pl, al⟩ := s
  cases e with
  | alarmFire =>
      simp [stepDO, alarmDO, pairBit, isSuccess, isCreated, isCreateReq]
  | req n op =>
      cases op <;> cases ca <;> cases pl <;>
        simp_all [stepDO, fetchDO, createDO, consumeBody, deleteBody, reactiveGate,
          deleteAllKeys, pairBit, isSuccess, isCreated, isCreateReq] <;>
        split_ifs <;> simp_all

/-- Run counting: deliveries are bounded by creations plus an initially
present pair, and creations by create requests. -/
lemma run_count (es : List Event) : ∀ s : DOState,
    successCount (runDO s es).1 + pairBit (runDO s es).2
      ≤ createdCount (runDO s es).1 + pairBit s
    ∧ createdCount (runDO s es).1 ≤ createCount es := by
  induction es with
  | nil => intro s; simp [runDO, successCount, createdCount, createCount]
  | cons e es ih =>
      intro s
      have hstep := step_count s e
      have hrec := ih (stepDO s e).2
      have h1 : successCount (runDO s (e :: es)).1
          = (if isSuccess (stepDO s e).1 then 1 else 0)
            + successCount (runDO (stepDO s e).2 es).1 :=
        filterLen_cons isSuccess _ _
      have h2 : createdCount (runDO s (e :: es)).1
          = (if isCreated (stepDO s e).1 then 1 else 0)
            + createdCount (runDO (stepDO s e).2 es).1 :=
        filterLen_cons isCreated _ _
      have h3 : createCount (e :: es)
          = (if isCreateReq e then 1 else 0) + createCount es :=
        filterLen_cons isCreateReq _ _
      have h4 : (runDO s (e :: es)).2 = (runDO (stepDO s e).2 es).2 := rfl
      rw [h1, h2, h3, h4]
      omega

/-- One step preserves the deadline relation between `created_at` and the
armed alarm. -/
lemma step_alarmMatches (s : DOState) (e : Event) (h : alarmMatches s = true) :
    alarmMatches (stepDO s e).2 = true := by
  obtain ⟨ca, pl, al⟩ := s
  cases e with
  | alarmFire => rfl
  | req n op =>
      cases op <;> cases ca <;> cases pl <;>
        simp_all [stepDO, fetchDO, createDO, consumeBody, deleteBody, reactiveGate,
          deleteAllKeys, alarmMatches] <;>
        split_ifs <;> simp_all [alarmMatches]

/-- The deadline relation holds along any run. -/
lemma run_alarmMatches (es : List Event) : ∀ s : DOState, alarmMatches s = true →
    alarmMatches (runDO s es).2 = true := by
  induction es with
  | nil => intro s h; exact h
  | cons e es ih => intro s h; exact ih _ (step_alarmMatches s e h)

/-- Under the pair invariant, a consume request never takes the handler-local
404 branch. -/
lemma consume_no404 (s : DOState) (n : Int) (h : pairInv s = true) :
    isLocal404 (fetchDO s n .consume).1 = false := by
  obtain ⟨ca, pl, al⟩ := s
  cases ca <;> cases pl <;>
    simp_all [fetchDO, reactiveGate, consumeBody, deleteAllKeys, pairInv, isLocal404] <;>
    split_ifs <;> simp_all [isLocal404]

/-- A delete request never takes the handler-local 404 branch, from any
state: the reactive gate already filters every falsy `created_at`. -/
lemma delete_no404 (s : DOState) (n : Int) :
    isLocal404 (fetchDO s n .delete).1 = false := by
  obtain ⟨ca, pl, al⟩ := s
  cases ca <;>
    simp_all [fetchDO, reactiveGate, deleteBody, deleteAllKeys, isLocal404] <;>
    split_ifs <;> simp_all [isLocal404]

/-! ### Claim theorems -/

/-- C8: both-or-neither invariant.  In every state reachable from the empty
durable object by any serialized sequence of create, consume, delete and
alarm events, the storage keys `created_at` and `payload` are either both
present or both absent. -/
theorem pair_both_or_neither (es : List Event) :
    pairInv (runDO initDO es).2 = true :=
  run_pairInv es initDO rfl

/-- C9: the handler-local 404 not_found branches of consume and delete are
unreachable. On every state reachable from the empty durable object neither
operation ever produces the 404 not_found response; an Empty identifier
(both keys absent) is instead answered by the reactive gate's 410 Gone
response for both operations, so a never-created identifier and an
already-consumed one are indistinguishable to the caller. -/
theorem local_not_found_unreachable (es : List Event) (n : Int) :
    isLocal404 (fetchDO (runDO initDO es).2 n .consume).1 = false
    ∧ (∀ (s : DOState) (k : Int), isLocal404 (fetchDO s k .delete).1 = false)
    ∧ (∀ (a : Option Int) (m : Int),
        fetchDO ⟨none, none, a⟩ m .consume = (.gone, ⟨none, none, a⟩)
        ∧ fetchDO ⟨none, none, a⟩ m .delete = (.gone, ⟨none, none, a⟩)) :=
  ⟨consume_no404 _ n (run_pairInv es initDO rfl),
   fun s k => delete_no404 s k,
   fun _ _ => ⟨rfl, rfl⟩⟩

/-- C1 (amended): at-most-once retrieval holds for every serialized sequence
containing at most one create request: starting from the empty durable
object, at most one consume in the whole run returns the payload.  The
unamended claim fails because a create after a consume or delete re-stashes
the identifier (see the counterexample). -/
theorem consume_at_most_once_single_create (es : List Event)
    (h : createCount es ≤ 1) : successCount (runDO initDO es).1 ≤ 1 := by
  have hc := run_count es initDO
  have h0 : pairBit initDO = 0 := rfl
  omega

/-- Witness for the amended C1 theorem at a concrete create-consume run. -/
theorem consume_at_most_once_single_create_wit :
    createCount [Event.req 1000000 (Op.create 1000 sp0), Event.req 1001000 Op.consume] ≤ 1
    ∧ successCount (runDO initDO
        [Event.req 1000000 (Op.create 1000 sp0), Event.req 1001000 Op.consume]).1 ≤ 1 :=
  ⟨by decide, consume_at_most_once_single_create _ (by decide)⟩

/-- C1 counterexample: with a second create request in the sequence, two
consume calls each deliver the payload, refuting at-most-once retrieval over
unrestricted operation sequences. -/
theorem consume_at_most_once_cex :
    successCount (runDO initDO
      [Event.req 1000000 (Op.create 1000 sp0), Event.req 1001000 Op.consume,
       Event.req 1002000 (Op.create 1002 sp0), Event.req 1003000 Op.consume]).1 = 2 := by
  decide

/-- C4 (amended): whenever `created_at` is stored, the armed alarm deadline
equals `created_at` plus 600 seconds.  The unamended claim also asserts the
alarm is cleared whenever the pair is cleared, which fails: consume, delete
and the reactive wipe never disarm the alarm (see the counterexample). -/
theorem alarm_deadline_while_pair (es : List Event) (ca : Int)
    (h : (runDO initDO es).2.created_at = some ca) :
    (runDO initDO es).2.alarm = some (ca * 1000 + LIFETIME_MS) := by
  have hm := run_alarmMatches es initDO rfl
  unfold alarmMatches at hm
  rw [h] at hm
  simpa using hm

/-- Witness for the amended C4 theorem after a concrete create. -/
theorem alarm_deadline_while_pair_wit :
    (runDO initDO [Event.req 1000000 (Op.create 1000 sp0)]).2.created_at = some 1000
    ∧ (runDO initDO [Event.req 1000000 (Op.create 1000 sp0)]).2.alarm
        = some (1000 * 1000 + LIFETIME_MS) :=
  ⟨by decide, alarm_deadline_while_pair _ 1000 (by decide)⟩

/-- C4 counterexample: a consume clears the pair of keys, yet the alarm
stays armed at the old deadline, so the alarm is not armed
if-and-only-if the pair is present. -/
theorem alarm_outlives_pair_cex :
    runDO initDO [Event.req 1000000 (Op.create 1000 sp0), Event.req 1001000 Op.consume]
      = ([DOResult.created, DOResult.payloadResponse sp0], ⟨none, none, some 1600000⟩)
    ∧ pairBit ⟨none, none, some 1600000⟩ = 0 := by
  decide

/-- C2: reactive expiry monotonicity, with the code-bug input exhibited.
For an Active state with a nonzero stored `created_at`, any consume or
delete at or past `created_at` plus 600 seconds wipes both storage keys and
answers Expired (never the payload), whatever the pending alarm value, so
whether or not the proactive timer has already been consumed.  The last
conjunct evaluates the slip: at the JavaScript-falsy stored value 0
(reachable by a create at timestamp 0), a consume past the deadline answers
Gone and clears nothing. -/
theorem reactive_expiry_monotone (ca nowMs : Int) (p : Payload) (a : Option Int)
    (hca : ca ≠ 0) (h : ca * 1000 + LIFETIME_MS ≤ nowMs) :
    fetchDO ⟨some ca, some p, a⟩ nowMs .consume = (.expired, ⟨none, none, a⟩)
    ∧ fetchDO ⟨some ca, some p, a⟩ nowMs .delete = (.expired, ⟨none, none, a⟩)
    ∧ runDO initDO [Event.req 0 (Op.create 0 p), Event.req 600000 Op.consume]
        = ([DOResult.created, DOResult.gone], ⟨some 0, some p, some 600000⟩) := by
  refine ⟨?_, ?_, rfl⟩
  · simp [fetchDO, reactiveGate, deleteAllKeys, hca, h]
  · simp [fetchDO, reactiveGate, deleteAllKeys, hca, h]

/-- Witness for the C2 theorem at a concrete expired consume. -/
theorem reactive_expiry_monotone_wit :
    (5 : Int) ≠ 0 ∧ (5 : Int) * 1000 + LIFETIME_MS ≤ 700000
    ∧ fetchDO ⟨some 5, some sp0, none⟩ 700000 Op.consume
        = (.expired, ⟨none, none, none⟩) :=
  ⟨by decide, by decide,
   (reactive_expiry_monotone 5 700000 sp0 none (by decide) (by decide)).1⟩

/-- C3: a consume invoked on an Empty identifier (both keys absent) is
answered by the reactive gate's 410 Gone response, which is the code's
NotFound outcome in the spec taxonomy; and the delete-then-consume scenario:
a create, then a delete returning its success response, then a consume whose
outcome is NotFound. -/
theorem consume_empty_not_found (t0 n1 n2 n3 : Int) (p : Payload) (a : Option Int)
    (h0 : t0 ≠ 0)
    (hs1 : Int.fdiv n1 1000 - MAX_SKEW ≤ t0) (hs2 : t0 ≤ Int.fdiv n1 1000 + MAX_SKEW)
    (hd : n2 < t0 * 1000 + LIFETIME_MS) :
    (∀ (a2 : Option Int) (m : Int),
        fetchDO ⟨none, none, a2⟩ m .consume = (.gone, ⟨none, none, a2⟩)
        ∧ specView (fetchDO ⟨none, none, a2⟩ m .consume).1 = .notFound)
    ∧ fetchDO ⟨none, none, a⟩ n1 (.create t0 p)
        = (.created, ⟨some t0, some p, some (t0 * 1000 + LIFETIME_MS)⟩)
    ∧ fetchDO ⟨some t0, some p, some (t0 * 1000 + LIFETIME_MS)⟩ n2 .delete
        = (.deleted, ⟨none, none, some (t0 * 1000 + LIFETIME_MS)⟩)
    ∧ specView (fetchDO ⟨none, none, some (t0 * 1000 + LIFETIME_MS)⟩ n3 .consume).1
        = .notFound := by
  refine ⟨fun a2 m => ⟨rfl, rfl⟩, ?_, ?_, rfl⟩
  · have hn : ¬(t0 < Int.fdiv n1 1000 - MAX_SKEW ∨ Int.fdiv n1 1000 + MAX_SKEW < t0) := by
      simp only [MAX_SKEW] at *; omega
    simp [fetchDO, createDO, hn]
  · have hn : ¬(t0 * 1000 + LIFETIME_MS ≤ n2) := by omega
    simp [fetchDO, reactiveGate, deleteBody, h0, hn]

/-- Witness for the C3 theorem on a concrete create, delete, consume run. -/
theorem consume_empty_not_found_wit :
    (1000 : Int) ≠ 0
    ∧ Int.fdiv 1000000 1000 - MAX_SKEW ≤ 1000 ∧ (1000 : Int) ≤ Int.fdiv 1000000 1000 + MAX_SKEW
    ∧ (1001000 : Int) < 1000 * 1000 + LIFETIME_MS
    ∧ specView (fetchDO ⟨none, none, some (1000 * 1000 + LIFETIME_MS)⟩ 1002000 Op.consume).1
        = .notFound :=
  ⟨by decide, by decide, by decide, by decide,
   (consume_empty_not_found 1000 1000000 1001000 1002000 sp0 none
      (by decide) (by decide) (by decide) (by decide)).2.2.2⟩

/-- C5: create skew bound.  From the Empty state the result is Created
exactly when the supplied timestamp lies in the closed interval of width 300
seconds around `Math.floor(Date.now() / 1000)`; any timestamp outside the
interval is answered InvalidTimestamp with the state unchanged, from every
state; in particular now minus 301 is rejected from every state and now
minus 299 is accepted from the Empty state. -/
theorem create_skew_bound (nowMs t : Int) (p : Payload) (a : Option Int) (s : DOState) :
    ((fetchDO ⟨none, none, a⟩ nowMs (.create t p)).1 = .created
      ↔ (Int.fdiv nowMs 1000 - MAX_SKEW ≤ t ∧ t ≤ Int.fdiv nowMs 1000 + MAX_SKEW))
    ∧ ((t < Int.fdiv nowMs 1000 - MAX_SKEW ∨ Int.fdiv nowMs 1000 + MAX_SKEW < t)
        → fetchDO s nowMs (.create t p) = (.invalidTimestamp, s))
    ∧ fetchDO s nowMs (.create (Int.fdiv nowMs 1000 - 301) p) = (.invalidTimestamp, s)
    ∧ (fetchDO ⟨none, none, a⟩ nowMs (.create (Int.fdiv nowMs 1000 - 299) p)).1
        = .created := by
  refine ⟨?_, ?_, ?_, ?_⟩
  · by_cases hc : (t < Int.fdiv nowMs 1000 - MAX_SKEW ∨ Int.fdiv nowMs 1000 + MAX_SKEW < t)
    · simp [fetchDO, createDO, hc]
      simp only [MAX_SKEW] at *
      omega
    · simp [fetchDO, createDO, hc]
      simp only [MAX_SKEW] at *
      omega
  · intro hc
    simp [fetchDO, createDO, hc]
  · have hc : (Int.fdiv nowMs 1000 - 301 < Int.fdiv nowMs 1000 - MAX_SKEW
        ∨ Int.fdiv nowMs 1000 + MAX_SKEW < Int.fdiv nowMs 1000 - 301) := by
      simp only [MAX_SKEW]; omega
    simp only [fetchDO, createDO]
    rw [if_pos hc]
  · have hn : ¬(Int.fdiv nowMs 1000 - 299 < Int.fdiv nowMs 1000 - MAX_SKEW
        ∨ Int.fdiv nowMs 1000 + MAX_SKEW < Int.fdiv nowMs 1000 - 299) := by
      simp only [MAX_SKEW]; omega
    simp only [fetchDO, createDO]
    rw [if_neg hn]

/-- Witness for the C5 theorem, discharging its inner implication at a
concrete out-of-interval timestamp. -/
theorem create_skew_bound_wit :
    ((2000 : Int) < Int.fdiv 1000000 1000 - MAX_SKEW
      ∨ Int.fdiv 1000000 1000 + MAX_SKEW < 2000)
    ∧ fetchDO ⟨some 5, some sp0, none⟩ 1000000 (Op.create 2000 sp0)
        = (.invalidTimestamp, ⟨some 5, some sp0, none⟩) :=
  ⟨by decide,
   (create_skew_bound 1000000 2000 sp0 none ⟨some 5, some sp0, none⟩).2.1 (by decide)⟩

/-- C6: idempotent create, with the code-bug input exhibited.  For an Active
state with a nonzero stored `created_at`, a second create with a timestamp
inside the skew window answers AlreadyExists and leaves `created_at`,
`payload` and the pending alarm exactly as they were, and a consume before
the deadline still delivers the original payload.  The last conjunct
evaluates the slip: when the stored `created_at` is the JavaScript-falsy 0,
the replay guard `if (existingTimestamp)` does not fire, so a replayed
create overwrites the pair and re-arms the alarm, exactly what the source
comment says the guard is there to prevent. -/
theorem create_replay_guard (ca t2 n n2 : Int) (p p2 : Payload) (a : Option Int)
    (hca : ca ≠ 0)
    (hs1 : Int.fdiv n 1000 - MAX_SKEW ≤ t2) (hs2 : t2 ≤ Int.fdiv n 1000 + MAX_SKEW)
    (hb : n2 < ca * 1000 + LIFETIME_MS) :
    fetchDO ⟨some ca, some p, a⟩ n (.create t2 p2) = (.alreadyCreated, ⟨some ca, some p, a⟩)
    ∧ fetchDO ⟨some ca, some p, a⟩ n2 .consume = (.payloadResponse p, ⟨none, none, a⟩)
    ∧ runDO initDO [Event.req 0 (Op.create 0 p), Event.req 1000 (Op.create 1 p2)]
        = ([DOResult.created, DOResult.created], ⟨some 1, some p2, some 601000⟩) := by
  refine ⟨?_, ?_, rfl⟩
  · have hn : ¬(t2 < Int.fdiv n 1000 - MAX_SKEW ∨ Int.fdiv n 1000 + MAX_SKEW < t2) := by
      simp only [MAX_SKEW] at *; omega
    simp [fetchDO, createDO, hn, hca]
  · have hn : ¬(ca * 1000 + LIFETIME_MS ≤ n2) := by omega
    simp [fetchDO, reactiveGate, consumeBody, hca, hn]

/-- Witness for the C6 theorem at a concrete replayed create. -/
theorem create_replay_guard_wit :
    (1000 : Int) ≠ 0
    ∧ Int.fdiv 1000000 1000 - MAX_SKEW ≤ 1000 ∧ (1000 : Int) ≤ Int.fdiv 1000000 1000 + MAX_SKEW
    ∧ (1001000 : Int) < 1000 * 1000 + LIFETIME_MS
    ∧ fetchDO ⟨some 1000, some sp0, some 1600000⟩ 1000000 (Op.create 1000 sp1)
        = (.alreadyCreated, ⟨some 1000, some sp0, some 1600000⟩) :=
  ⟨by decide, by decide, by decide, by decide,
   (create_replay_guard 1000 1000 1000000 1001000 sp0 sp1 (some 1600000)
      (by decide) (by decide) (by decide) (by decide)).1⟩

/-- C7: round trip, with the code-bug input exhibited.  For every payload
and every nonzero timestamp inside the skew window, a create from the Empty
state stores the bundle verbatim and answers Created, and a consume strictly
before the 600 second deadline delivers exactly the stored bundle.  The last
conjunct evaluates the slip: a create at timestamp 0 (valid when the clock
is within 300 seconds of the epoch) succeeds, but the payload can then never
be delivered; the consume answers Gone. -/
theorem round_trip_payload (t n n2 : Int) (p : Payload) (a : Option Int)
    (ht : t ≠ 0)
    (hs1 : Int.fdiv n 1000 - MAX_SKEW ≤ t) (hs2 : t ≤ Int.fdiv n 1000 + MAX_SKEW)
    (hb : n2 < t * 1000 + LIFETIME_MS) :
    fetchDO ⟨none, none, a⟩ n (.create t p)
      = (.created, ⟨some t, some p, some (t * 1000 + LIFETIME_MS)⟩)
    ∧ fetchDO ⟨some t, some p, some (t * 1000 + LIFETIME_MS)⟩ n2 .consume
      = (.payloadResponse p, ⟨none, none, some (t * 1000 + LIFETIME_MS)⟩)
    ∧ runDO initDO [Event.req 0 (Op.create 0 p), Event.req 1000 Op.consume]
        = ([DOResult.created, DOResult.gone], ⟨some 0, some p, some 600000⟩) := by
  refine ⟨?_, ?_, rfl⟩
  · have hn : ¬(t < Int.fdiv n 1000 - MAX_SKEW ∨ Int.fdiv n 1000 + MAX_SKEW < t) := by
      simp only [MAX_SKEW] at *; omega
    simp [fetchDO, createDO, hn]
  · have hn : ¬(t * 1000 + LIFETIME_MS ≤ n2) := by omega
    simp [fetchDO, reactiveGate, consumeBody, ht, hn]

/-- Witness for the C7 theorem on a concrete create and consume. -/
theorem round_trip_payload_wit :
    (1000 : Int) ≠ 0
    ∧ Int.fdiv 1000000 1000 - MAX_SKEW ≤ 1000 ∧ (1000 : Int) ≤ Int.fdiv 1000000 1000 + MAX_SKEW
    ∧ (1001000 : Int) < 1000 * 1000 + LIFETIME_MS
    ∧ fetchDO ⟨some 1000, some sp0, some (1000 * 1000 + LIFETIME_MS)⟩ 1001000 Op.consume
        = (.payloadResponse sp0, ⟨none, none, some (1000 * 1000 + LIFETIME_MS)⟩) :=
  ⟨by decide, by decide, by decide, by decide,
   (round_trip_payload 1000 1000000 1001000 sp0 none
      (by decide) (by decide) (by decide) (by decide)).2.1⟩

/-- C10 (amended): create performs no expiry check.  For an Active state
whose nonzero `created_at` already lies 600 seconds or more in the past but
whose pair has not been wiped yet, a create with a timestamp inside the skew
window answers AlreadyExists and leaves the stale pair and its alarm
untouched; it neither wipes nor answers Expired.  The amendment restricts
the stored `created_at` to nonzero values (see the counterexample). -/
theorem create_skips_expiry (ca t2 n : Int) (p p2 : Payload) (a : Option Int)
    (hca : ca ≠ 0) (_hexp : ca * 1000 + LIFETIME_MS ≤ n)
    (hs1 : Int.fdiv n 1000 - MAX_SKEW ≤ t2) (hs2 : t2 ≤ Int.fdiv n 1000 + MAX_SKEW) :
    fetchDO ⟨some ca, some p, a⟩ n (.create t2 p2)
      = (.alreadyCreated, ⟨some ca, some p, a⟩) := by
  have hn : ¬(t2 < Int.fdiv n 1000 - MAX_SKEW ∨ Int.fdiv n 1000 + MAX_SKEW < t2) := by
    simp only [MAX_SKEW] at *; omega
  simp [fetchDO, createDO, hn, hca]

/-- Witness for the amended C10 theorem at a concrete stale state. -/
theorem create_skips_expiry_wit :
    (1000 : Int) ≠ 0 ∧ (1000 : Int) * 1000 + LIFETIME_MS ≤ 1700000
    ∧ Int.fdiv 1700000 1000 - MAX_SKEW ≤ 1700 ∧ (1700 : Int) ≤ Int.fdiv 1700000 1000 + MAX_SKEW
    ∧ fetchDO ⟨some 1000, some sp0, some 1600000⟩ 1700000 (Op.create 1700 sp1)
        = (.alreadyCreated, ⟨some 1000, some sp0, some 1600000⟩) :=
  ⟨by decide, by decide, by decide, by decide,
   create_skips_expiry 1000 1700 1700000 sp0 sp1 (some 1600000)
     (by decide) (by decide) (by decide) (by decide)⟩

/-- C10 counterexample: with the JavaScript-falsy stored `created_at` of 0,
a create on an expired-but-present pair does not answer AlreadyExists: it
overwrites the pair and re-arms the alarm. -/
theorem create_skips_expiry_cex :
    fetchDO ⟨some 0, some sp0, some 600000⟩ 700000 (Op.create 700 sp1)
      = (.created, ⟨some 700, some sp1, some 1300000⟩) := by
  decide
